import Mathlib

/-!
Verification of the fitpc2_tz thermal-zone driver (src/fitpc2_tz.c).

The development shallowly embeds the driver's pure computation
(`temp_convert`), its register transaction (`get_temp`, as a trace of
PCI-configuration-space operations guarded by a mutex), the static trip
policy callbacks, the module initialisation path (`fitpc2_init`, with the
success/failure of each external call as an input and the set of live
resources as output), and a two-thread interleaving semantics used to
reason about serialisation of concurrent transactions.
-/

namespace Fitpc2

/-! ### Constants (the `#define`s at the top of fitpc2_tz.c) -/

def REG_DELAY : Nat := 100
def PCI_PORT5_MCR : Nat := 0xD0
def PCI_PORT5_MDR : Nat := 0xD4
def TEMP1_MASK : Nat := 0x000000FF
def TEMP1_SHIFT : Nat := 0
def TEMP2_MASK : Nat := 0x0000FF00
def TEMP2_SHIFT : Nat := 8
def B0_INIT : Nat := 0xFFFFFFFF
def B0_EXIT : Nat := 0x00000000
def TEMP_CRIT : Int := 119
def TEMP_TRIP : Int := 119

/-- Linux errno values used by the driver (returned negated). -/
def ENOMEM : Int := 12
def EBUSY : Int := 16
def ENODEV : Int := 19

/-! ### Temperature model (`temp_convert`, lines 75-82) -/

/-- The first intermediate product `1680 * temp * temp` of `temp_convert`,
computed exactly (the C code computes it in `int`/`s32`; exactness of the
embedding for `temp ≤ 255` is what claim C6 establishes). -/
def conv_c1_num (temp : Nat) : Nat := 1680 * temp * temp

/-- The second intermediate product `82652 * temp` of `temp_convert`. -/
def conv_c2_num (temp : Nat) : Nat := 82652 * temp

/-- `temp_convert` (lines 75-82): `c1 = 1680*temp*temp / 1000000;
c2 = 82652*temp / 100000; return c1 - c2 + 127;` with C `s32`
truncating-toward-zero division, i.e. `Int.tdiv`. -/
def temp_convert (temp : Nat) : Int :=
  let c1 : Int := Int.tdiv (conv_c1_num temp) 1000000
  let c2 : Int := Int.tdiv (conv_c2_num temp) 100000
  c1 - c2 + 127

/-- The spec's formula for the conversion, written with exact natural-number
(floor) arithmetic as the spec states it:
`floor(1680*raw^2/1000000) - floor(82652*raw/100000) + 127`. -/
def spec_convert (raw : Nat) : Int :=
  ((1680 * raw ^ 2 / 1000000 : Nat) : Int) - ((82652 * raw / 100000 : Nat) : Int) + 127


/-! ### The register transaction (`get_temp`, lines 84-120)

`get_temp` is embedded as a function from its inputs (whether `pdev` is
non-NULL, which thermal zone handle the framework passed in, the 32-bit
word the PCI read returns, and the prior contents of `*temperature`) to
its return code, the ordered trace of mutex/PCI operations it performs,
and the final contents of `*temperature`. -/

/-- One observable operation of the driver: mutex lock/unlock,
`pci_write_config_dword` (offset, value), `pci_read_config_dword` (offset),
or `msleep` (milliseconds). -/
inductive Op where
  | lock : Op
  | unlock : Op
  | write : Nat → Nat → Op
  | opread : Nat → Op
  | sleep : Nat → Op
deriving DecidableEq, Repr

/-- The thermal zone handle passed to `get_temp`: `tz[0]->dev`,
`tz[1]->dev`, or some other registered zone's handle. -/
inductive Zone where
  | sensor0 : Zone
  | sensor1 : Zone
  | other : Nat → Zone
deriving DecidableEq, Repr

structure GetTempResult where
  ret : Int
  trace : List Op
  temperature : Int
deriving DecidableEq, Repr

/-- The operation sequence performed by the body of `get_temp` when
`pdev` is present (lines 93-109), in source order. -/
def gt_ops : List Op :=
  [Op.lock,
   Op.write PCI_PORT5_MDR B0_INIT,
   Op.write PCI_PORT5_MCR 0xE004B000,
   Op.sleep REG_DELAY,
   Op.write PCI_PORT5_MCR 0xD004B100,
   Op.opread PCI_PORT5_MDR,
   Op.write PCI_PORT5_MDR B0_EXIT,
   Op.write PCI_PORT5_MCR 0xE004B000,
   Op.unlock]

/-- `get_temp` (lines 84-120). `reg` is the word returned by the
`pci_read_config_dword` at line 103; `temperature` is the prior contents
of the output parameter, which the code writes only for the two
recognised zone handles (lines 114-117). -/
def get_temp (pdev : Bool) (zone : Zone) (reg : Nat) (temperature : Int) :
    GetTempResult :=
  if pdev = false then ⟨-ENODEV, [], temperature⟩
  else
    let temp1 := (reg &&& TEMP1_MASK) >>> TEMP1_SHIFT
    let temp2 := (reg &&& TEMP2_MASK) >>> TEMP2_SHIFT
    let out :=
      match zone with
      | Zone.sensor0 => temp_convert temp1
      | Zone.sensor1 => temp_convert temp2
      | Zone.other _ => temperature
    ⟨0, gt_ops, out⟩

/-- The register/hardware operations of a trace: everything except the
mutex lock and unlock. -/
def regOps (l : List Op) : List Op :=
  l.filter fun op =>
    match op with
    | Op.lock => false
    | Op.unlock => false
    | _ => true

/-! ### Trip policy callbacks (lines 122-145)

Each callback returns 0 and conditionally writes its output parameter;
the embedding returns the pair (return code, value written if any). -/

inductive TripType where
  | active : TripType
deriving DecidableEq, Repr

/-- `get_crit_temp` (lines 122-127): unconditionally writes `TEMP_CRIT`
and returns 0. -/
def get_crit_temp : Int × Int := (0, TEMP_CRIT)

/-- `get_trip_type` (lines 129-136): writes `THERMAL_TRIP_ACTIVE` only
when `trip == 0`; always returns 0. -/
def get_trip_type (trip : Int) : Int × Option TripType :=
  (0, if trip = 0 then some TripType.active else none)

/-- `get_trip_temp` (lines 138-145): writes `TEMP_TRIP` only when
`trip == 0`; always returns 0. -/
def get_trip_temp (trip : Int) : Int × Option Int :=
  (0, if trip = 0 then some TEMP_TRIP else none)

/-! ### Module initialisation (`fitpc2_init`, lines 154-182)

The external calls' success/failure are inputs; the output is the return
code together with the set of resources still live when `fitpc2_init`
returns. `pdev_ref` is the PCI device reference taken by
`pci_get_device` (taken only when a device is found). -/

structure Resources where
  pdev_ref : Bool
  mutex_ready : Bool
  tz0_alloc : Bool
  tz1_alloc : Bool
  zone0_reg : Bool
  zone1_reg : Bool
deriving DecidableEq, Repr

def noResources : Resources := ⟨false, false, false, false, false, false⟩

/-- `fitpc2_init` (lines 154-182). `dmi_ok`: `dmi_check_system` matched;
`pci_found`: `pci_get_device` returned a device; `alloc0`/`alloc1`: the
two `kzalloc` calls succeeded; `reg0`/`reg1`: the two
`thermal_zone_device_register` calls succeeded. The code returns on the
first failure without undoing any earlier step. -/
def fitpc2_init (dmi_ok pci_found alloc0 alloc1 reg0 reg1 : Bool) :
    Int × Resources :=
  if dmi_ok = false then (-ENODEV, noResources)
  else
    let r0 : Resources := ⟨pci_found, true, false, false, false, false⟩
    if alloc0 = false then (-ENOMEM, r0)
    else
      let r1 := { r0 with tz0_alloc := true }
      if alloc1 = false then (-ENOMEM, r1)
      else
        let r2 := { r1 with tz1_alloc := true }
        if reg0 = false then (-EBUSY, r2)
        else
          let r3 := { r2 with zone0_reg := true }
          if reg1 = false then (-EBUSY, r3)
          else (0, { r3 with zone1_reg := true })

/-! ### Two-thread interleaving semantics for the transaction (claim C9)

Two framework threads each run one `get_temp` transaction, i.e. each
executes the operation list `gt_ops` from left to right.  `mutex_lock`
blocks while the mutex is held and acquires it; `mutex_unlock` releases
it; the hardware operations are unguarded.  A configuration records the
mutex owner and how many operations of `gt_ops` each thread (named by a
`Bool`) has executed; `Reach tr c` says configuration `c` is reachable
from the initial one with the interleaved event trace `tr`. -/

def isHw : Op → Bool
  | Op.lock => false
  | Op.unlock => false
  | _ => true

structure Cfg where
  owner : Option Bool
  posF : Nat
  posT : Nat
deriving DecidableEq, Repr

def Cfg.pos (c : Cfg) (t : Bool) : Nat := if t then c.posT else c.posF

def Cfg.setPos (c : Cfg) (t : Bool) (p : Nat) : Cfg :=
  if t then { c with posT := p } else { c with posF := p }

/-- Blocking behaviour of the mutex: `lock` runs only when the mutex is
free, `unlock` releases the caller's own hold, hardware operations are
unguarded. -/
def opGuard (owner : Option Bool) (t : Bool) : Op → Prop
  | Op.lock => owner = none
  | Op.unlock => owner = some t
  | _ => True

def applyOwner (owner : Option Bool) (t : Bool) : Op → Option Bool
  | Op.lock => some t
  | Op.unlock => none
  | _ => owner

def stepCfg (c : Cfg) (t : Bool) (op : Op) : Cfg :=
  { c.setPos t (c.pos t + 1) with owner := applyOwner c.owner t op }

inductive Step : Cfg → Bool × Op → Cfg → Prop where
  | mk (c : Cfg) (t : Bool) (op : Op)
      (hop : gt_ops.get? (c.pos t) = some op)
      (hg : opGuard c.owner t op) :
      Step c (t, op) (stepCfg c t op)

def init_cfg : Cfg := ⟨none, 0, 0⟩

inductive Reach : List (Bool × Op) → Cfg → Prop where
  | start : Reach [] init_cfg
  | next {tr c e c2} : Reach tr c → Step c e c2 → Reach (tr ++ [e]) c2

/-- The thread ids of the hardware (non-mutex) events of a trace, in
order. -/
def hwThreads (tr : List (Bool × Op)) : List Bool :=
  (tr.filter fun e => isHw e.2).map Prod.fst

/-- How many of its 7 hardware operations a thread at position `p` of
`gt_ops` has executed. -/
def hwCount (p : Nat) : Nat := min (p - 1) 7

/-- Invariant: positions are within the program; the mutex is owned by a
thread exactly while it is between its `lock` and its `unlock`; and the
hardware events so far form (a prefix of) one thread's block followed by
(a prefix of) the other's, the second being nonempty only once the first
thread has finished its whole transaction. -/
def MutexInv (tr : List (Bool × Op)) (c : Cfg) : Prop :=
  c.pos true ≤ 9 ∧ c.pos false ≤ 9 ∧
  (∀ t : Bool, c.owner = some t ↔ (1 ≤ c.pos t ∧ c.pos t ≤ 8)) ∧
  ∃ x : Bool,
    hwThreads tr =
      List.replicate (hwCount (c.pos x)) x ++
        List.replicate (hwCount (c.pos (!x))) (!x) ∧
    (hwCount (c.pos (!x)) ≠ 0 → c.pos x = 9)

/-! ### Theorems about the embedding -/

theorem temp_convert_eq_spec (raw : Nat) : temp_convert raw = spec_convert raw := by
  unfold temp_convert spec_convert conv_c1_num conv_c2_num
  rw [pow_two,
      show ((1000000 : Int)) = ((1000000 : Nat) : Int) from rfl,
      show ((100000 : Int)) = ((100000 : Nat) : Int) from rfl,
      ← Int.ofNat_tdiv, ← Int.ofNat_tdiv, Nat.mul_assoc]

/-! ### Byte-extraction lemmas for the status word (lines 111-112) -/

theorem temp1_extract (reg : Nat) :
    (reg &&& TEMP1_MASK) >>> TEMP1_SHIFT = reg % 256 := by
  show (reg &&& 0xFF) >>> 0 = reg % 256
  rw [Nat.shiftRight_zero, show (0xFF : Nat) = 2 ^ 8 - 1 from rfl,
      Nat.and_pow_two_sub_one_eq_mod]

theorem temp2_extract (reg : Nat) :
    (reg &&& TEMP2_MASK) >>> TEMP2_SHIFT = reg / 256 % 256 := by
  show (reg &&& 0xFF00) >>> 8 = reg / 256 % 256
  have h1 : reg / 256 % 256 = (reg >>> 8) &&& (2 ^ 8 - 1) := by
    rw [Nat.and_pow_two_sub_one_eq_mod, Nat.shiftRight_eq_div_pow]
  rw [h1]
  apply Nat.eq_of_testBit_eq
  intro i
  rw [show (0xFF00 : Nat) = (2 ^ 8 - 1) <<< 8 by decide]
  simp only [Nat.testBit_shiftLeft, Nat.testBit_shiftRight, Nat.testBit_and,
             Nat.testBit_two_pow_sub_one]
  have h2 : 8 + i - 8 = i := by omega
  have h3 : (decide (8 ≤ 8 + i)) = true := by simp
  rw [h2, h3]
  cases Nat.testBit reg (8 + i) <;> cases (decide (i < 8)) <;> simp

/-! ### Claim theorems -/

/-- C1: for every raw byte in [0,255], `temp_convert raw` equals
`floor(1680*raw^2/1000000) - floor(82652*raw/100000) + 127` computed with
exact integer arithmetic and truncating division (`spec_convert`); in
particular `temp_convert 0 = 127`. -/
theorem C1_convert_formula (raw : Nat) (h : raw ≤ 255) :
    temp_convert raw = spec_convert raw ∧ temp_convert 0 = 127 :=
  ⟨temp_convert_eq_spec raw, by decide⟩

theorem C1_convert_formula_witness :
    30 ≤ 255 ∧ (temp_convert 30 = spec_convert 30 ∧ temp_convert 0 = 127) :=
  ⟨by decide, C1_convert_formula 30 (by decide)⟩

/-- C2: one read transaction with the device present performs exactly the
register-operation sequence: write 0xFFFFFFFF to the data register (MDR),
write 0xE004B000 to the command register (MCR), delay 100, write
0xD004B100 to MCR, read MDR, write 0 to MDR, write 0xE004B000 to MCR —
in this order, nothing reordered or omitted, for every zone handle and
register value. -/
theorem C2_transaction_sequence (zone : Zone) (reg : Nat) (t : Int) :
    regOps (get_temp true zone reg t).trace =
      [Op.write PCI_PORT5_MDR 0xFFFFFFFF,
       Op.write PCI_PORT5_MCR 0xE004B000,
       Op.sleep 100,
       Op.write PCI_PORT5_MCR 0xD004B100,
       Op.opread PCI_PORT5_MDR,
       Op.write PCI_PORT5_MDR 0x00000000,
       Op.write PCI_PORT5_MCR 0xE004B000] := by
  cases zone <;> rfl

/-- C3, counterexample: for status word 0x00001E0A the code computes
`temp_convert 10` (= 119) for sensor 0 and `temp_convert 30` (= 104) for
sensor 1 — not `temp_convert 30` for sensor 0 and `temp_convert 10` for
sensor 1 as the claim's example states. -/
theorem C3_example_counterexample :
    ¬ ((get_temp true Zone.sensor0 0x00001E0A 0).temperature = temp_convert 30 ∧
       (get_temp true Zone.sensor1 0x00001E0A 0).temperature = temp_convert 10) := by
  decide

/-- C3, amended: the raw byte for sensor 0 is bits [7:0] of the status
word and the raw byte for sensor 1 is bits [15:8]; bits above [15:8] are
ignored and each sensor's temperature is `temp_convert` of its own byte;
status word 0x00001E0A yields `temp_convert 10` for sensor 0 and
`temp_convert 30` for sensor 1. -/
theorem C3_byte_extraction (reg : Nat) (t : Int) :
    (get_temp true Zone.sensor0 reg t).temperature = temp_convert (reg % 256) ∧
    (get_temp true Zone.sensor1 reg t).temperature = temp_convert (reg / 256 % 256) ∧
    (get_temp true Zone.sensor0 0x00001E0A 0).temperature = temp_convert 10 ∧
    (get_temp true Zone.sensor1 0x00001E0A 0).temperature = temp_convert 30 := by
  refine ⟨?_, ?_, by decide, by decide⟩
  · show temp_convert ((reg &&& TEMP1_MASK) >>> TEMP1_SHIFT) = temp_convert (reg % 256)
    rw [temp1_extract]
  · show temp_convert ((reg &&& TEMP2_MASK) >>> TEMP2_SHIFT) = temp_convert (reg / 256 % 256)
    rw [temp2_extract]

/-- C4: the trip-policy callbacks give fixed answers: `get_crit_temp`
always writes 119; `get_trip_temp` writes 119 exactly for trip 0 and
nothing otherwise; `get_trip_type` writes `active` exactly for trip 0 and
nothing otherwise. -/
theorem C4_trip_policy :
    get_crit_temp.2 = 119 ∧
    (∀ n : Int, (get_trip_temp n).2 = if n = 0 then some 119 else none) ∧
    (∀ n : Int, (get_trip_type n).2 = if n = 0 then some TripType.active else none) :=
  ⟨rfl, fun _ => rfl, fun _ => rfl⟩

/-- C5: `get_temp` fails (with -ENODEV, i.e. DeviceNotPresent) exactly
when the device handle is absent, in which case it performs no operation
at all (empty trace, hence zero register writes); with the handle present
it always returns 0. -/
theorem C5_failure_model (pdev : Bool) (zone : Zone) (reg : Nat) (t : Int) :
    ((get_temp pdev zone reg t).ret = if pdev then 0 else -ENODEV) ∧
    (get_temp false zone reg t).trace = [] := by
  cases pdev <;> exact ⟨rfl, rfl⟩

/-- C6: for every raw byte in [0,255] each intermediate product of
`temp_convert` is bounded by its value at 255 and fits below 2^31, so the
C `s32` computation never overflows. -/
theorem C6_no_overflow (raw : Nat) (h : raw ≤ 255) :
    1680 * raw ≤ 1680 * 255 ∧
    conv_c1_num raw ≤ 1680 * 255 * 255 ∧
    conv_c2_num raw ≤ 82652 * 255 ∧
    (1680 * 255 * 255 : Nat) < 2 ^ 31 ∧
    (82652 * 255 : Nat) < 2 ^ 31 := by
  unfold conv_c1_num conv_c2_num
  refine ⟨Nat.mul_le_mul_left _ h,
          Nat.mul_le_mul (Nat.mul_le_mul_left _ h) h,
          Nat.mul_le_mul_left _ h, by norm_num, by norm_num⟩

theorem C6_no_overflow_witness :
    255 ≤ 255 ∧
    (1680 * 255 ≤ 1680 * 255 ∧
     conv_c1_num 255 ≤ 1680 * 255 * 255 ∧
     conv_c2_num 255 ≤ 82652 * 255 ∧
     (1680 * 255 * 255 : Nat) < 2 ^ 31 ∧
     (82652 * 255 : Nat) < 2 ^ 31) :=
  ⟨by decide, C6_no_overflow 255 (by decide)⟩

/-- C7: at the failing input where both the DMI match and the PCI lookup
succeed, `tz[0]`'s allocation succeeds and `tz[1]`'s allocation fails,
`fitpc2_init` returns -ENOMEM while the PCI device reference is still
held and `tz[0]` is still allocated: contrary to the claim, nothing is
released on the error path. -/
theorem C7_init_leak :
    fitpc2_init true true true false true true =
      (-ENOMEM, ⟨true, true, true, false, false, false⟩) ∧
    (fitpc2_init true true true false true true).2 ≠ noResources :=
  ⟨rfl, by decide⟩

/-- C8, counterexample: with the DMI match succeeding but PCI enumeration
finding no device (and every later step succeeding), `fitpc2_init`
returns 0 — not a no-such-device failure — and both sensor descriptors
are allocated and both zones registered. -/
theorem C8_counterexample :
    (fitpc2_init true false true true true true).1 = 0 ∧
    (fitpc2_init true false true true true true).2 =
      ⟨false, true, true, true, true, true⟩ :=
  ⟨rfl, rfl⟩

/-- C8, amended: only a failed DMI platform match makes `fitpc2_init`
report -ENODEV with nothing allocated or registered; when merely the PCI
enumeration finds no device, init still allocates both descriptors,
registers both zones and returns success, and every subsequent read
fails with -ENODEV (DeviceNotPresent). -/
theorem C8_init_device_absent (pci alloc0 alloc1 reg0 reg1 : Bool)
    (zone : Zone) (reg : Nat) (t : Int) :
    fitpc2_init false pci alloc0 alloc1 reg0 reg1 = (-ENODEV, noResources) ∧
    (fitpc2_init true false true true true true).1 = 0 ∧
    (fitpc2_init true false true true true true).2.zone0_reg = true ∧
    (fitpc2_init true false true true true true).2.zone1_reg = true ∧
    (get_temp false zone reg t).ret = -ENODEV :=
  ⟨rfl, rfl, rfl, rfl, rfl⟩

theorem stepCfg_owner (c : Cfg) (t : Bool) (op : Op) :
    (stepCfg c t op).owner = applyOwner c.owner t op := by
  cases t <;> rfl

theorem stepCfg_pos (c : Cfg) (t : Bool) (op : Op) (t' : Bool) :
    (stepCfg c t op).pos t' = if t' = t then c.pos t + 1 else c.pos t' := by
  cases t <;> cases t' <;> simp [stepCfg, Cfg.setPos, Cfg.pos]

theorem hwThreads_append (tr : List (Bool × Op)) (e : Bool × Op) :
    hwThreads (tr ++ [e]) =
      hwThreads tr ++ (if isHw e.2 then [e.1] else []) := by
  unfold hwThreads
  rw [List.filter_append]
  cases h : isHw e.2 <;> simp [h]

theorem mutexInv_start : MutexInv [] init_cfg := by
  unfold MutexInv
  decide

theorem lock_step_inv {tr : List (Bool × Op)} {c : Cfg} {t : Bool}
    (ih : MutexInv tr c) (hp : c.pos t = 0) (hg : c.owner = none) :
    MutexInv (tr ++ [(t, Op.lock)]) (stepCfg c t Op.lock) := by
  obtain ⟨h9T, h9F, hiff, x, hx, hcond⟩ := ih
  have hpos' : ∀ t', (stepCfg c t Op.lock).pos t' = if t' = t then 1 else c.pos t' := by
    intro t'
    rw [stepCfg_pos]
    by_cases h : t' = t <;> simp [h, hp]
  have hcnt : ∀ t', hwCount ((stepCfg c t Op.lock).pos t') = hwCount (c.pos t') := by
    intro t'
    rw [hpos' t']
    by_cases h : t' = t
    · subst h
      rw [if_pos rfl, hp]
      decide
    · simp [h]
  refine ⟨?_, ?_, ?_, ?_⟩
  · rw [hpos' true]
    split_ifs with h
    · omega
    · exact h9T
  · rw [hpos' false]
    split_ifs with h
    · omega
    · exact h9F
  · intro t'
    rw [stepCfg_owner, hpos' t']
    show some t = some t' ↔ _
    by_cases h : t' = t
    · subst h
      simp
    · have ht : t ≠ t' := fun hh => h hh.symm
      refine iff_of_false (fun hsome => ht (Option.some.inj hsome)) ?_
      intro hrange
      have h2 := (hiff t').mpr (by simpa [h] using hrange)
      rw [hg] at h2
      exact Option.noConfusion h2
  · refine ⟨x, ?_, ?_⟩
    · rw [hwThreads_append, hcnt, hcnt]
      simpa [isHw] using hx
    · rw [hcnt, hpos' x]
      intro hb
      by_cases h : x = t
      · exfalso
        have h0 : hwCount (c.pos (!x)) = 0 := by
          by_contra hne
          have := hcond hne
          rw [h, hp] at this
          exact absurd this (by omega)
        exact hb h0
      · simp only [h, if_false]
        exact hcond hb

theorem unlock_step_inv {tr : List (Bool × Op)} {c : Cfg} {t : Bool}
    (ih : MutexInv tr c) (hp : c.pos t = 8) (hg : c.owner = some t) :
    MutexInv (tr ++ [(t, Op.unlock)]) (stepCfg c t Op.unlock) := by
  obtain ⟨h9T, h9F, hiff, x, hx, hcond⟩ := ih
  have hpos' : ∀ t', (stepCfg c t Op.unlock).pos t' = if t' = t then 9 else c.pos t' := by
    intro t'
    rw [stepCfg_pos]
    by_cases h : t' = t <;> simp [h, hp]
  have hcnt : ∀ t', hwCount ((stepCfg c t Op.unlock).pos t') = hwCount (c.pos t') := by
    intro t'
    rw [hpos' t']
    by_cases h : t' = t
    · subst h
      rw [if_pos rfl, hp]
      decide
    · simp [h]
  refine ⟨?_, ?_, ?_, ?_⟩
  · rw [hpos' true]
    split_ifs with h
    · omega
    · exact h9T
  · rw [hpos' false]
    split_ifs with h
    · omega
    · exact h9F
  · intro t'
    rw [stepCfg_owner, hpos' t']
    show (none : Option Bool) = some t' ↔ _
    refine iff_of_false (fun habs => Option.noConfusion habs) ?_
    intro hrange
    by_cases h : t' = t
    · subst h
      rw [if_pos rfl] at hrange
      omega
    · rw [if_neg h] at hrange
      have h2 := (hiff t').mpr hrange
      rw [hg] at h2
      exact h (Option.some.inj h2).symm
  · refine ⟨x, ?_, ?_⟩
    · rw [hwThreads_append, hcnt, hcnt]
      simpa [isHw] using hx
    · rw [hcnt, hpos' x]
      intro hb
      by_cases h : x = t
      · simp [h]
      · simp only [h, if_false]
        exact hcond hb

theorem hw_step_inv {tr : List (Bool × Op)} {c : Cfg} {t : Bool} {op : Op}
    (ih : MutexInv tr c) (p : Nat) (hp : c.pos t = p) (h1 : 1 ≤ p) (h7 : p ≤ 7)
    (hhw : isHw op = true) (how : applyOwner c.owner t op = c.owner) :
    MutexInv (tr ++ [(t, op)]) (stepCfg c t op) := by
  obtain ⟨h9T, h9F, hiff, x, hx, hcond⟩ := ih
  have hown : c.owner = some t := (hiff t).mpr (by omega)
  have hq9 : c.pos (!t) ≤ 9 := by
    cases t
    · exact h9T
    · exact h9F
  have hq09 : c.pos (!t) = 0 ∨ c.pos (!t) = 9 := by
    have hnr : ¬(1 ≤ c.pos (!t) ∧ c.pos (!t) ≤ 8) := by
      intro hr
      have h2 := (hiff (!t)).mpr hr
      rw [hown] at h2
      have h3 := Option.some.inj h2
      exact absurd h3 (by cases t <;> decide)
    omega
  have hpos' : ∀ t', (stepCfg c t op).pos t' = if t' = t then p + 1 else c.pos t' := by
    intro t'
    rw [stepCfg_pos]
    by_cases h : t' = t <;> simp [h, hp]
  have hnew : hwThreads (tr ++ [(t, op)]) = hwThreads tr ++ [t] := by
    rw [hwThreads_append]
    simp [hhw]
  have hnt : ¬((!t) = t) := by cases t <;> decide
  refine ⟨?_, ?_, ?_, ?_⟩
  · rw [hpos' true]
    split_ifs with h
    · omega
    · exact h9T
  · rw [hpos' false]
    split_ifs with h
    · omega
    · exact h9F
  · intro t'
    rw [stepCfg_owner, how, hown, hpos' t']
    by_cases h : t' = t
    · subst h
      rw [if_pos rfl]
      exact iff_of_true rfl (by omega)
    · rw [if_neg h]
      have ht : t ≠ t' := fun hh => h hh.symm
      refine iff_of_false (fun hsome => ht (Option.some.inj hsome)) ?_
      intro hrange
      have h2 := (hiff t').mpr hrange
      rw [hown] at h2
      exact ht (Option.some.inj h2)
  · by_cases hxt : x = t
    · rw [hxt] at hx hcond
      rw [hp] at hx hcond
      have h0 : hwCount (c.pos (!t)) = 0 := by
        by_contra hne
        have h9 := hcond hne
        omega
      refine ⟨t, ?_, ?_⟩
      · rw [hnew, hpos' t, if_pos rfl, hpos' (!t), if_neg hnt, hx, h0]
        simp only [List.replicate_zero, List.append_nil]
        rw [show hwCount (p + 1) = hwCount p + 1 from by unfold hwCount; omega]
        exact (List.replicate_succ' _ _).symm
      · rw [hpos' (!t), if_neg hnt, h0]
        intro hb
        exact absurd rfl hb
    · have hxt' : x = !t := by
        cases x <;> cases t <;> simp_all
      subst hxt'
      rw [Bool.not_not] at hx hcond
      rw [hp] at hx hcond
      rcases hq09 with hq0 | hq9v
      · have hp1 : p = 1 := by
          by_contra hne
          have hcnz : hwCount p ≠ 0 := by unfold hwCount; omega
          have := hcond hcnz
          omega
        refine ⟨t, ?_, ?_⟩
        · rw [hnew, hpos' t, if_pos rfl, hpos' (!t), if_neg hnt, hx, hq0, hp1]
          rw [show hwCount 0 = 0 from rfl, show hwCount 1 = 0 from rfl,
              show hwCount 2 = 1 from rfl]
          simp
        · rw [hpos' (!t), if_neg hnt, hq0]
          intro hb
          exact absurd rfl hb
      · refine ⟨!t, ?_, ?_⟩
        · rw [hnew, Bool.not_not, hpos' (!t), if_neg hnt, hpos' t, if_pos rfl,
              hx, hq9v]
          rw [show hwCount (p + 1) = hwCount p + 1 from by unfold hwCount; omega]
          rw [List.append_assoc]
          congr 1
          exact (List.replicate_succ' _ _).symm
        · rw [Bool.not_not, hpos' t, if_pos rfl, hpos' (!t), if_neg hnt]
          intro _
          exact hq9v

theorem reach_inv {tr0 : List (Bool × Op)} {c0 : Cfg} (h : Reach tr0 c0) :
    MutexInv tr0 c0 := by
  induction h with
  | start => exact mutexInv_start
  | next hR hS ih =>
    rename_i tr c e c2
    cases hS with
    | mk t op hop hg =>
      have hlt : c.pos t < 9 := by
        by_contra hge
        push_neg at hge
        have hnone : gt_ops.get? (c.pos t) = none := by
          apply List.get?_eq_none.mpr
          rw [show gt_ops.length = 9 from rfl]
          exact hge
        rw [hnone] at hop
        exact Option.noConfusion hop
      obtain ⟨p, hp⟩ : ∃ p, c.pos t = p := ⟨_, rfl⟩
      rw [hp] at hop hlt
      interval_cases p
      · have hv : Op.lock = op :=
          Option.some.inj ((show gt_ops.get? 0 = some Op.lock from rfl).symm.trans hop)
        subst hv
        exact lock_step_inv ih hp hg
      · have hv : Op.write PCI_PORT5_MDR B0_INIT = op :=
          Option.some.inj ((show gt_ops.get? 1 = _ from rfl).symm.trans hop)
        subst hv
        exact hw_step_inv ih 1 hp (by omega) (by omega) rfl rfl
      · have hv : Op.write PCI_PORT5_MCR 0xE004B000 = op :=
          Option.some.inj ((show gt_ops.get? 2 = _ from rfl).symm.trans hop)
        subst hv
        exact hw_step_inv ih 2 hp (by omega) (by omega) rfl rfl
      · have hv : Op.sleep REG_DELAY = op :=
          Option.some.inj ((show gt_ops.get? 3 = _ from rfl).symm.trans hop)
        subst hv
        exact hw_step_inv ih 3 hp (by omega) (by omega) rfl rfl
      · have hv : Op.write PCI_PORT5_MCR 0xD004B100 = op :=
          Option.some.inj ((show gt_ops.get? 4 = _ from rfl).symm.trans hop)
        subst hv
        exact hw_step_inv ih 4 hp (by omega) (by omega) rfl rfl
      · have hv : Op.opread PCI_PORT5_MDR = op :=
          Option.some.inj ((show gt_ops.get? 5 = _ from rfl).symm.trans hop)
        subst hv
        exact hw_step_inv ih 5 hp (by omega) (by omega) rfl rfl
      · have hv : Op.write PCI_PORT5_MDR B0_EXIT = op :=
          Option.some.inj ((show gt_ops.get? 6 = _ from rfl).symm.trans hop)
        subst hv
        exact hw_step_inv ih 6 hp (by omega) (by omega) rfl rfl
      · have hv : Op.write PCI_PORT5_MCR 0xE004B000 = op :=
          Option.some.inj ((show gt_ops.get? 7 = _ from rfl).symm.trans hop)
        subst hv
        exact hw_step_inv ih 7 hp (by omega) (by omega) rfl rfl
      · have hv : Op.unlock = op :=
          Option.some.inj ((show gt_ops.get? 8 = some Op.unlock from rfl).symm.trans hop)
        subst hv
        exact unlock_step_inv ih hp hg

/-- C9: the transaction program takes the mutex before its first
register operation and releases it after the last
(`gt_ops = lock :: regOps gt_ops ++ [unlock]`), and in every reachable
interleaving of two concurrent transactions the hardware events form one
thread's block followed by the other's — the second thread performs no
hardware operation until the first has completed all 7 of its own — so
transactions never partially overlap. -/
theorem C9_mutex_serialization :
    (gt_ops = Op.lock :: regOps gt_ops ++ [Op.unlock]) ∧
    ∀ tr c, Reach tr c →
      ∃ (x : Bool) (a b : Nat), a ≤ 7 ∧ b ≤ 7 ∧ (b ≠ 0 → a = 7) ∧
        hwThreads tr = List.replicate a x ++ List.replicate b (!x) := by
  refine ⟨rfl, ?_⟩
  intro tr c h
  obtain ⟨h9T, h9F, hiff, x, hx, hcond⟩ := reach_inv h
  refine ⟨x, hwCount (c.pos x), hwCount (c.pos (!x)),
          Nat.min_le_right _ _, Nat.min_le_right _ _, ?_, hx⟩
  intro hb
  rw [hcond hb]
  decide

theorem C9_mutex_serialization_witness :
    (gt_ops = Op.lock :: regOps gt_ops ++ [Op.unlock]) ∧
    ∃ (x : Bool) (a b : Nat), a ≤ 7 ∧ b ≤ 7 ∧ (b ≠ 0 → a = 7) ∧
      hwThreads [] = List.replicate a x ++ List.replicate b (!x) :=
  ⟨C9_mutex_serialization.1, C9_mutex_serialization.2 [] init_cfg Reach.start⟩

/-- C10: invoking `get_temp` with a zone handle matching neither sensor,
with the device present, still performs the full transaction `gt_ops`,
returns 0, and leaves the output temperature unchanged. -/
theorem C10_unmatched_zone (i reg : Nat) (t : Int) :
    get_temp true (Zone.other i) reg t = ⟨0, gt_ops, t⟩ :=
  rfl

end Fitpc2
